import Mathlib

/-!
Verification of the crawl orchestration engine in `app/crawler.py`.

Python strings are modelled as lists of characters (`PyStr`), machine
integers as `Nat`/`Int`, `None`-able fields as `Option`, wall-clock
instants as `Nat` minutes, and the module-level mutable state
(`active_crawls`, the SQLAlchemy session) as an explicit `EngineState`
record threaded through the operations.
-/

namespace Speculum

/-- Python strings modelled as lists of characters. -/
abbrev PyStr := List Char

/-- Python `str.lower()` (per-character, ASCII-faithful). -/
def pyLower (s : PyStr) : PyStr := s.map Char.toLower

/-- Python `pat in s` substring membership test. -/
def substrIn (pat s : PyStr) : Bool := decide (pat <:+: s)

/-- Python slice `s[:n]`. -/
def pyTake (n : Nat) (s : PyStr) : PyStr := s.take n

/-- Python slice `l[-n:]` (for `n = 0` this is the whole list). -/
def pyLastN {α : Type} (l : List α) (n : Nat) : List α :=
  if n = 0 then l else l.drop (l.length - n)

/-! Constants from the top of `app/crawler.py`. -/

def MAX_RETRIES : Nat := 3

def RETRY_DELAYS : List Nat := [5, 15, 45]

def DEFAULT_TIMEOUT : Nat := 3600

def LARGE_SITE_TIMEOUT : Nat := 3600 * 4

/-- `RECOVERABLE_ERRORS` list from `crawler.py`. -/
def RECOVERABLE_ERRORS : List PyStr :=
  ["timed out".data, "timeout".data, "connection refused".data, "connection reset".data,
   "temporary failure".data, "service unavailable".data, "503".data, "502".data, "504".data,
   "too many requests".data, "429".data]

/-- `PERMANENT_ERRORS` list from `crawler.py`. -/
def PERMANENT_ERRORS : List PyStr :=
  ["404".data, "403".data, "401".data, "not found".data, "forbidden".data,
   "unauthorized".data, "name or service not known".data, "no such host".data,
   "ssl certificate".data, "certificate verify failed".data]

/-- Classification outcomes of `classify_error`. -/
inductive ErrorClass
  | permanent
  | recoverable
  | unknown
deriving DecidableEq

/-- The `for pattern in patterns: if pattern in s: return ...` loop shape:
true iff some pattern of the list is a substring of `s`, scanning in order. -/
def firstMatch (patterns : List PyStr) (s : PyStr) : Bool :=
  match patterns with
  | [] => false
  | p :: ps => if substrIn p s then true else firstMatch ps s

/-- `classify_error` from `crawler.py`; the argument is `Option` because the
Python parameter may be `None`, and `if not error_message` treats `None` and
the empty string alike. -/
def classify_error (error_message : Option PyStr) : ErrorClass :=
  match error_message with
  | none => .unknown
  | some msg =>
    if msg = [] then .unknown
    else
      let error_lower := pyLower msg
      if firstMatch PERMANENT_ERRORS error_lower then .permanent
      else if firstMatch RECOVERABLE_ERRORS error_lower then .recoverable
      else .unknown

/-- The `Site` row fields the engine reads and writes. Timestamps are `Nat`
minutes; `crawl_interval_days` is converted to minutes where used. -/
structure Site where
  url : PyStr
  status : String
  name : PyStr := []
  channel_id : Option PyStr := none
  error_message : Option PyStr := none
  retry_count : Option Nat := none
  size_bytes : Option Nat := none
  page_count : Option Nat := none
  crawl_interval_days : Nat := 30
  last_crawl : Option Nat := none
  next_crawl : Option Nat := none
deriving DecidableEq

/-- The `CrawlLog` row fields the engine writes (the Attempt Record). -/
structure CrawlLog where
  site_id : Nat
  started_at : Nat
  status : String
  error_message : Option PyStr := none
  finished_at : Option Nat := none
  pages_crawled : Option Nat := none
  size_bytes : Option Nat := none
deriving DecidableEq

/-- `should_retry` from `crawler.py`: `site.retry_count or 0`, the cap check
first, then the permanent-classification check. -/
def should_retry (site : Site) : Bool :=
  let retry_count := site.retry_count.getD 0
  if retry_count ≥ MAX_RETRIES then false
  else if classify_error site.error_message = .permanent then false
  else true

/-- `get_retry_delay` from `crawler.py`: index into `RETRY_DELAYS`, last
entry repeating beyond the list. -/
def get_retry_delay (retry_count : Nat) : Nat :=
  if retry_count < RETRY_DELAYS.length then RETRY_DELAYS.getD retry_count 0
  else RETRY_DELAYS.getLastD 0

/-- The `large_patterns` list inside `get_timeout_for_site`. -/
def large_patterns : List PyStr :=
  ["archive.org".data, "wikipedia".data, "magiclibrarities".data]

/-- `get_timeout_for_site` from `crawler.py`. The Python guard
`site.size_bytes and site.size_bytes > 100*1024*1024` is falsy for both
`None` and `0`, which `Option.getD 0` reproduces; the pattern loop tests
each pattern against the whole lowercased URL. -/
def get_timeout_for_site (site : Site) : Nat :=
  if site.size_bytes.getD 0 > 100 * 1024 * 1024 then LARGE_SITE_TIMEOUT
  else if firstMatch large_patterns (pyLower site.url) then LARGE_SITE_TIMEOUT
  else DEFAULT_TIMEOUT

/-- Python `f.endswith(('.html', '.htm'))`. -/
def endsHtml (f : PyStr) : Bool :=
  ".html".data.isSuffixOf f || ".htm".data.isSuffixOf f

/-- `get_mirror_stats` from `crawler.py`: one walk accumulating total byte
size and the count of `.html`/`.htm` files. The mirror directory tree is
modelled as a flat list of (file name, byte size) pairs. -/
def get_mirror_stats (files : List (PyStr × Nat)) : Nat × Nat :=
  files.foldl
    (fun acc file => (acc.1 + file.2, acc.2 + if endsHtml file.1 then 1 else 0))
    (0, 0)

/-- `mark_crawl_success` from `crawler.py` (`timedelta(days=d)` is `d * 1440`
minutes). -/
def mark_crawl_success (site : Site) (crawl_log : CrawlLog)
    (size_bytes page_count : Nat) (now : Nat) : Site × CrawlLog :=
  ({ site with
      status := "ready"
      last_crawl := some now
      next_crawl := some (now + site.crawl_interval_days * 1440)
      size_bytes := some size_bytes
      page_count := some page_count
      error_message := none
      retry_count := some 0 },
   { crawl_log with
      finished_at := some now
      status := "success"
      pages_crawled := some page_count
      size_bytes := some size_bytes })

/-- `handle_crawl_error` from `crawler.py`: set the error message, increment
`retry_count` (`or 0`), finalize the log row, then either schedule a retry
(`retry_pending`, `now + get_retry_delay(retry_count - 1)` minutes) or stop
with `dead`/`error` depending on the classification. -/
def handle_crawl_error (site : Site) (crawl_log : CrawlLog) (error_message : PyStr)
    (now : Nat) : Site × CrawlLog :=
  let site1 : Site :=
    { site with
        error_message := some error_message
        retry_count := some (site.retry_count.getD 0 + 1) }
  let log1 : CrawlLog :=
    { crawl_log with
        finished_at := some now
        status := "error"
        error_message := some error_message }
  if should_retry site1 then
    let delay := get_retry_delay (site1.retry_count.getD 0 - 1)
    ({ site1 with next_crawl := some (now + delay), status := "retry_pending" }, log1)
  else
    let error_type := classify_error (some error_message)
    ({ site1 with status := if error_type = .permanent then "dead" else "error" }, log1)

/-! Dispatch paths. A wget supervision loop (`_run_wget_process`) can end by
normal process exit, by total-timeout expiry (raises `TimeoutExpired`), or by
stall detection (raises a generic exception); `subprocess.run` calls (yt-dlp,
single-file) either finish with a return code or raise `TimeoutExpired`. -/

/-- Possible endings of one `_run_wget_process` invocation. -/
inductive RunOutcome
  | completed (returncode : Int)
  | timedOut
  | stalled
deriving DecidableEq

/-- Possible endings of one `subprocess.run` invocation. -/
inductive RunResult
  | finished (returncode : Int)
  | expired
deriving DecidableEq

/-- The `no_output_timeout` default of `_run_wget_process`. -/
def no_output_timeout : Nat := 300

/-- The message of the `except subprocess.TimeoutExpired` handler:
`f'Timeout after {timeout//3600}h'`. -/
def timeout_message (timeout : Nat) : PyStr :=
  "Timeout after ".data ++ Nat.toDigits 10 (timeout / 3600) ++ "h".data

/-- The stall exception text raised by `_run_wget_process`. -/
def stall_message : PyStr :=
  "Crawl stalled - no output for ".data ++ Nat.toDigits 10 no_output_timeout ++ "s".data

/-- The `for crawl_url in urls_to_crawl` loop of `crawl_website`: runs stop at
the first raised exception, whose handler message is returned; completed runs
merely log their exit code (a non-`{0, 8}` code only produces a warning) and
the loop continues. `none` means every run completed. -/
def run_crawl_urls (timeout : Nat) : List RunOutcome → Option PyStr
  | [] => none
  | .completed _ :: rest => run_crawl_urls timeout rest
  | .timedOut :: _ => some (timeout_message timeout)
  | .stalled :: _ => some (pyTake 1000 stall_message)

/-- The outcome-commit logic of `crawl_website`: if some run raised, route the
handler message to `handle_crawl_error`; otherwise compute mirror stats and
raise `"No content downloaded"` when `page_count == 0 and size_bytes < 1000`,
else mark success. -/
def crawl_website_result (site : Site) (crawl_log : CrawlLog) (runs : List RunOutcome)
    (mirror_files : List (PyStr × Nat)) (timeout now : Nat) : Site × CrawlLog :=
  match run_crawl_urls timeout runs with
  | some msg => handle_crawl_error site crawl_log msg now
  | none =>
    let stats := get_mirror_stats mirror_files
    if stats.2 = 0 ∧ stats.1 < 1000 then
      handle_crawl_error site crawl_log (pyTake 1000 "No content downloaded".data) now
    else
      mark_crawl_success site crawl_log stats.1 stats.2 now

/-- `timeout = LARGE_SITE_TIMEOUT * 3` set unconditionally in `crawl_youtube`. -/
def crawl_youtube_timeout : Nat := LARGE_SITE_TIMEOUT * 3

/-- The outcome-commit logic of `crawl_youtube`: `TimeoutExpired` routes to
`handle_crawl_error`; any finished run (the return code is never inspected)
goes straight to `mark_crawl_success` with the computed stats, with no
emptiness check. -/
def crawl_youtube_result (site : Site) (crawl_log : CrawlLog) (run : RunResult)
    (size_bytes page_count : Nat) (now : Nat) : Site × CrawlLog :=
  match run with
  | .expired => handle_crawl_error site crawl_log (timeout_message crawl_youtube_timeout) now
  | .finished _ => mark_crawl_success site crawl_log size_bytes page_count now

/-- The fixed 5-minute `timeout = 300` of `crawl_singlefile`. -/
def singlefile_timeout : Nat := 300

/-- The outcome-commit logic of `crawl_singlefile`: `TimeoutExpired` maps to
`'SingleFile timeout'`; exit code 0 leads to the stats check, raising when no
HTML page was captured; a nonzero exit code raises `SingleFile failed:` with
the stderr head. -/
def crawl_singlefile_result (site : Site) (crawl_log : CrawlLog) (run : RunResult)
    (mirror_files : List (PyStr × Nat)) (stderr : PyStr) (now : Nat) : Site × CrawlLog :=
  match run with
  | .expired => handle_crawl_error site crawl_log "SingleFile timeout".data now
  | .finished rc =>
    if rc = 0 then
      let stats := get_mirror_stats mirror_files
      if stats.2 = 0 then
        handle_crawl_error site crawl_log
          (pyTake 1000 "No content captured by SingleFile".data) now
      else
        mark_crawl_success site crawl_log stats.1 stats.2 now
    else
      handle_crawl_error site crawl_log
        (pyTake 1000 ("SingleFile failed: ".data ++ pyTake 500 stderr)) now

/-! Engine state: the module-level `active_crawls` dict (guarded by
`crawls_lock`), the persisted `Site`, `CrawlLog` and `Video` tables, and the
set of crawl threads spawned by `start_crawl`. Tables are association lists
keyed by integer id. -/

/-- Signals sent to a subprocess. -/
inductive ProcSignal
  | terminate
  | kill
deriving DecidableEq

/-- One value of the `active_crawls` dict. The real entry holds a `Popen`
handle; here the handle is abstracted to whether the process exits within the
5-second grace of `process.wait(timeout=5)` after `terminate`. -/
structure CrawlEntry where
  process_exits_within_grace : Bool
  started : Nat
  log_lines : List PyStr
  crawl_log_id : Nat
deriving DecidableEq

/-- All state the crawler module touches. `crawl_threads` records, in spawn
order, the site id of every thread `start_crawl` has created. -/
structure EngineState where
  active_crawls : List (Nat × CrawlEntry)
  sites : List (Nat × Site)
  crawl_logs : List (Nat × CrawlLog)
  videos : List (Nat × PyStr)
  crawl_threads : List Nat
deriving DecidableEq

/-- First-match association-list lookup (dict/primary-key access). -/
def lookupA {α : Type} : List (Nat × α) → Nat → Option α
  | [], _ => none
  | (k1, v) :: rest, k => if k1 = k then some v else lookupA rest k

/-- Apply `f` to the value(s) stored under key `k` (row update). -/
def updateA {α : Type} : List (Nat × α) → Nat → (α → α) → List (Nat × α)
  | [], _, _ => []
  | (k1, v) :: rest, k, f =>
    (if k1 = k then (k1, f v) else (k1, v)) :: updateA rest k f

/-- Remove key `k` (`del d[k]`). -/
def removeA {α : Type} : List (Nat × α) → Nat → List (Nat × α)
  | [], _ => []
  | (k1, v) :: rest, k =>
    if k1 = k then removeA rest k else (k1, v) :: removeA rest k

/-- `d[k] = v` dict assignment: afterwards `k` maps to `v`. -/
def insertA {α : Type} (m : List (Nat × α)) (k : Nat) (v : α) : List (Nat × α) :=
  (k, v) :: removeA m k

/-- The `active_crawls[site_id] = {...}` registration step of
`_run_wget_process` (lines 294-301). -/
def register_active_crawl (site_id : Nat) (entry : CrawlEntry)
    (st : EngineState) : EngineState :=
  { st with active_crawls := insertA st.active_crawls site_id entry }

/-- The guaranteed-cleanup step of `crawl_website` (`finally:` block). -/
def unregister_active_crawl (site_id : Nat) (st : EngineState) : EngineState :=
  { st with active_crawls := removeA st.active_crawls site_id }

/-- `start_crawl` from `crawler.py`: unconditionally spawns a new daemon
thread running `crawl_site(site_id)`; it neither reads nor writes
`active_crawls`. -/
def start_crawl (st : EngineState) (site_id : Nat) : EngineState :=
  { st with crawl_threads := st.crawl_threads ++ [site_id] }

/-- The ways the engine stops (or observes the end of) a crawl subprocess. -/
inductive TerminationEvent
  | normalCompletion
  | totalTimeout
  | stallDetected
  | cancellation (exits_within_grace : Bool)
deriving DecidableEq

/-- Signals the engine sends in each case, from the source: on normal
completion the loop just observes `process.poll()` (no signal); on total
timeout and on stall `_run_wget_process` calls `process.kill()` directly
(lines 324 and 331); `stop_crawl` calls `process.terminate()`, waits up to 5
seconds, and calls `process.kill()` only on `TimeoutExpired` (lines 542-547). -/
def termination_signals : TerminationEvent → List ProcSignal
  | .normalCompletion => []
  | .totalTimeout => [.kill]
  | .stallDetected => [.kill]
  | .cancellation exits_within_grace =>
    if exits_within_grace then [.terminate] else [.terminate, .kill]

/-- `stop_crawl` from `crawler.py`. Returns the new state, the `(ok, message)`
pair, and the signals sent to the process. -/
def stop_crawl (st : EngineState) (site_id : Nat) (now : Nat) :
    EngineState × Bool × PyStr × List ProcSignal :=
  match lookupA st.active_crawls site_id with
  | none => (st, false, "Nessun crawl attivo per questo sito".data, [])
  | some crawl_info =>
    let signals := termination_signals (.cancellation crawl_info.process_exits_within_grace)
    let st1 : EngineState :=
      { st with
          active_crawls := removeA st.active_crawls site_id
          sites := updateA st.sites site_id (fun site =>
            { site with
                status := "error"
                error_message := some "Crawl interrotto manualmente".data })
          crawl_logs := updateA st.crawl_logs crawl_info.crawl_log_id (fun crawl_log =>
            { crawl_log with
                status := "cancelled"
                finished_at := some now
                error_message := some "Interrotto manualmente".data }) }
    (st1, true, "Crawl interrotto".data, signals)

/-- `get_active_crawls` from `crawler.py`, reduced to the `site_id` field of
each listed entry (entries whose site row is missing are skipped). -/
def get_active_crawls (st : EngineState) : List Nat :=
  (st.active_crawls.filter (fun p => (lookupA st.sites p.1).isSome)).map (fun p => p.1)

/-- `get_crawl_live_log` from `crawler.py`: `None` when the job has no live
entry, else the last `last_n` log lines. -/
def get_crawl_live_log (st : EngineState) (site_id : Nat) (last_n : Nat) :
    Option (List PyStr) :=
  match lookupA st.active_crawls site_id with
  | none => none
  | some info => some (if info.log_lines = [] then [] else pyLastN info.log_lines last_n)

/-- The progress snapshot of `get_crawl_progress`, reduced to the fields the
claims mention. -/
structure CrawlProgress where
  elapsed_seconds : Nat
  last_lines : List PyStr
deriving DecidableEq

/-- `get_crawl_progress` from `crawler.py`: `None` when the job has no live
entry, else a snapshot of elapsed time and the last 20 log lines. -/
def get_crawl_progress (st : EngineState) (site_id : Nat) (now : Nat) :
    Option CrawlProgress :=
  match lookupA st.active_crawls site_id with
  | none => none
  | some info =>
    some { elapsed_seconds := now - info.started
           last_lines := if info.log_lines = [] then [] else pyLastN info.log_lines 20 }

/-! Full-state traces of the non-wget dispatch paths, for frame reasoning:
each path is a list of state transformers, and `run_steps` yields every
intermediate state of the run. -/

/-- Result of the `get_youtube_channel_info` metadata probe. -/
structure ChannelInfo where
  channel_id : Option PyStr
  channel : Option PyStr
deriving DecidableEq

/-- The `site.status = 'crawling'; site.error_message = None` step opening
every dispatch path. -/
def set_site_crawling (site_id : Nat) (st : EngineState) : EngineState :=
  { st with sites := updateA st.sites site_id (fun site =>
      { site with status := "crawling", error_message := none }) }

/-- The `CrawlLog(site_id=..., started_at=..., status='running')` insertion
step. -/
def add_crawl_log (log_id site_id now : Nat) (st : EngineState) : EngineState :=
  { st with crawl_logs := st.crawl_logs ++
      [(log_id, { site_id := site_id, started_at := now, status := "running" })] }

/-- The channel-resolution step of `crawl_youtube`: if the site has no
`channel_id` and the probe returned one, store it and the channel name. -/
def resolve_channel (site_id : Nat) (info : Option ChannelInfo)
    (st : EngineState) : EngineState :=
  { st with sites := updateA st.sites site_id (fun site =>
      if site.channel_id = none then
        match info with
        | some i =>
          match i.channel_id with
          | some cid =>
            { site with channel_id := some cid, name := (i.channel.getD site.name) }
          | none => site
        | none => site
      else site) }

/-- The sidecar-scan step of `crawl_youtube`: insert one `Video` row per
found id not already catalogued for this site. -/
def insert_videos (site_id : Nat) (found_ids : List PyStr)
    (st : EngineState) : EngineState :=
  { st with videos := found_ids.foldl (fun acc vid =>
      if (acc.filter (fun p => p.1 = site_id ∧ p.2 = vid)).isEmpty then
        acc ++ [(site_id, vid)]
      else acc) st.videos }

/-- Write an outcome computed on `(Site, CrawlLog)` rows back into the
tables. -/
def apply_result (site_id log_id : Nat) (f : Site → CrawlLog → Site × CrawlLog)
    (st : EngineState) : EngineState :=
  match lookupA st.sites site_id, lookupA st.crawl_logs log_id with
  | some site, some crawl_log =>
    let r := f site crawl_log
    { st with
        sites := updateA st.sites site_id (fun _ => r.1)
        crawl_logs := updateA st.crawl_logs log_id (fun _ => r.2) }
  | _, _ => st

/-- The success commit of `crawl_youtube`: `page_count` is the count of this
site's `Video` rows at commit time. -/
def commit_youtube_success (site_id log_id size_bytes now : Nat)
    (st : EngineState) : EngineState :=
  let page_count := (st.videos.filter (fun p => p.1 = site_id)).length
  apply_result site_id log_id
    (fun site crawl_log => mark_crawl_success site crawl_log size_bytes page_count now) st

/-- The steps of one `crawl_youtube` run, in source order. On `TimeoutExpired`
the sidecar scan never executes and the error handler runs instead. -/
def crawl_youtube_steps (site_id log_id : Nat) (info : Option ChannelInfo)
    (run : RunResult) (found_ids : List PyStr) (size_bytes now : Nat) :
    List (EngineState → EngineState) :=
  [set_site_crawling site_id, add_crawl_log log_id site_id now,
   resolve_channel site_id info] ++
  (match run with
   | .finished _ =>
     [insert_videos site_id found_ids,
      commit_youtube_success site_id log_id size_bytes now]
   | .expired =>
     [apply_result site_id log_id (fun site crawl_log =>
        handle_crawl_error site crawl_log (timeout_message crawl_youtube_timeout) now)])

/-- The steps of one `crawl_singlefile` run, in source order. -/
def crawl_singlefile_steps (site_id log_id : Nat) (run : RunResult)
    (mirror_files : List (PyStr × Nat)) (stderr : PyStr) (now : Nat) :
    List (EngineState → EngineState) :=
  [set_site_crawling site_id, add_crawl_log log_id site_id now,
   apply_result site_id log_id (fun site crawl_log =>
     crawl_singlefile_result site crawl_log run mirror_files stderr now)]

/-- All intermediate states of a run, initial state included. -/
def run_steps (steps : List (EngineState → EngineState)) (st : EngineState) :
    List EngineState :=
  match steps with
  | [] => [st]
  | f :: rest => st :: run_steps rest (f st)

/-- Modelled from the spec: the domain (network location) part of a URL, as
`urlparse(url).netloc` would produce for scheme-qualified URLs — the text
between the `://` separator and the next `/`. Used only to compare the
spec's "domain matches the allow-list" wording with the source's check. -/
def afterSchemeSep : PyStr → PyStr
  | [] => []
  | ':' :: '/' :: '/' :: rest => rest
  | _ :: rest => afterSchemeSep rest

/-- Modelled from the spec: see `afterSchemeSep`. -/
def urlDomain (url : PyStr) : PyStr :=
  (afterSchemeSep url).takeWhile (fun c => c ≠ '/')

/-! Concrete fixtures used to evaluate the theorems on explicit inputs. -/

/-- A page-mirror job mid-dispatch (status already set to `crawling`). -/
def site0 : Site := { url := "https://example.com/".data, status := "crawling" }

/-- A running Attempt Record. -/
def log0 : CrawlLog := { site_id := 1, started_at := 0, status := "running" }

/-- A video-channel job mid-dispatch. -/
def site_yt : Site := { url := "https://youtube.com/@somechannel".data, status := "crawling" }

/-- A job whose URL contains an allow-list word in the path but not in the
domain. -/
def site_c8 : Site :=
  { url := "http://example.com/wikipedia".data, status := "pending", size_bytes := some 0 }

/-- A job whose domain is on the known-large allow-list. -/
def site_large : Site := { url := "https://en.wikipedia.org/".data, status := "pending" }

/-- A live-table entry whose process survives the 5-second grace period. -/
def entry0 : CrawlEntry :=
  { process_exits_within_grace := false, started := 0, log_lines := [], crawl_log_id := 5 }

/-- The site row behind `entry0`. -/
def site_live : Site := { url := "https://live.example.com/".data, status := "crawling" }

/-- An engine state with job 1 live (one spawned thread, one live entry). -/
def st_live : EngineState :=
  { active_crawls := [(1, entry0)], sites := [(1, site_live)],
    crawl_logs := [(5, log0)], videos := [], crawl_threads := [1] }

/-- An engine state with no live crawl, holding a video-channel job 7. -/
def st_clean : EngineState :=
  { active_crawls := [], sites := [(7, site_yt)], crawl_logs := [],
    videos := [], crawl_threads := [] }

/-- A mirror holding one non-HTML file of exactly 1000 bytes. -/
def files_bin : List (PyStr × Nat) := [("data.bin".data, 1000)]

/-- A mirror holding one HTML page of 5000 bytes. -/
def files_html : List (PyStr × Nat) := [("index.html".data, 5000)]

/-! Helper lemmas. -/

theorem lookupA_updateA {α : Type} (m : List (Nat × α)) (k : Nat) (f : α → α) :
    lookupA (updateA m k f) k = (lookupA m k).map f := by
  induction m with
  | nil => rfl
  | cons p rest ih =>
    rcases p with ⟨k1, v⟩
    by_cases h : k1 = k
    · subst h
      have hu : updateA ((k1, v) :: rest) k1 f = (k1, f v) :: updateA rest k1 f := by
        simp [updateA]
      rw [hu]
      simp [lookupA]
    · have hu : updateA ((k1, v) :: rest) k f = (k1, v) :: updateA rest k f := by
        simp [updateA, h]
      rw [hu]
      simpa [lookupA, h] using ih

theorem lookupA_removeA {α : Type} (m : List (Nat × α)) (k : Nat) :
    lookupA (removeA m k) k = none := by
  induction m with
  | nil => rfl
  | cons p rest ih =>
    rcases p with ⟨k1, v⟩
    by_cases h : k1 = k
    · simpa [removeA, h] using ih
    · simpa [removeA, lookupA, h] using ih

theorem lookupA_eq_none_forall {α : Type} (m : List (Nat × α)) (k : Nat)
    (h : lookupA m k = none) : ∀ p ∈ m, p.1 ≠ k := by
  induction m with
  | nil => intro p hp; cases hp
  | cons q rest ih =>
    intro p hp
    by_cases hq : q.1 = k
    · rw [lookupA, if_pos hq] at h; cases h
    · rw [lookupA, if_neg hq] at h
      rcases List.mem_cons.mp hp with hp | hp
      · rw [hp]; exact hq
      · exact ih h p hp

theorem not_mem_get_active_crawls (st : EngineState) (site_id : Nat)
    (h : lookupA st.active_crawls site_id = none) :
    site_id ∉ get_active_crawls st := by
  intro hmem
  rcases List.mem_map.mp hmem with ⟨p, hp, hpk⟩
  exact lookupA_eq_none_forall _ _ h p (List.mem_of_mem_filter hp) hpk

/-- When a job has no live entry, every live-registry API reports not found
and `stop_crawl` is a no-op returning `ok = false`. -/
theorem live_apis_not_found (st : EngineState) (site_id now last_n : Nat)
    (h : lookupA st.active_crawls site_id = none) :
    get_crawl_live_log st site_id last_n = none ∧
    get_crawl_progress st site_id now = none ∧
    site_id ∉ get_active_crawls st ∧
    stop_crawl st site_id now
      = (st, false, "Nessun crawl attivo per questo sito".data, []) := by
  refine ⟨?_, ?_, not_mem_get_active_crawls st site_id h, ?_⟩
  · rw [get_crawl_live_log, h]
  · rw [get_crawl_progress, h]
  · rw [stop_crawl, h]

theorem substrIn_lower {pat s : PyStr} (hpat : pat.map Char.toLower = pat)
    (h : substrIn pat s = true) : substrIn pat (pyLower s) = true := by
  have h1 : pat <:+: s := of_decide_eq_true h
  have h2 : pat.map Char.toLower <:+: s.map Char.toLower := h1.map Char.toLower
  rw [hpat] at h2
  exact decide_eq_true h2

theorem substr_ne_nil {pat s : PyStr} (hpat : pat ≠ [])
    (h : substrIn pat s = true) : s ≠ [] := by
  intro he
  subst he
  have h1 : pat <:+: ([] : PyStr) := of_decide_eq_true h
  rcases h1 with ⟨a, b, hab⟩
  simp [List.append_eq_nil] at hab
  exact hpat hab.2.1

theorem firstMatch_of_mem {patterns : List PyStr} {p s : PyStr}
    (hmem : p ∈ patterns) (h : substrIn p s = true) :
    firstMatch patterns s = true := by
  induction patterns with
  | nil => cases hmem
  | cons q rest ih =>
    rcases List.mem_cons.mp hmem with hq | hq
    · subst hq; rw [firstMatch, if_pos h]
    · rw [firstMatch]
      by_cases hqs : substrIn q s = true
      · rw [if_pos hqs]
      · rw [if_neg hqs]; exact ih hq

theorem classify_of_permanent {s : PyStr}
    (h : firstMatch PERMANENT_ERRORS (pyLower s) = true) :
    classify_error (some s) = .permanent := by
  have hs : ¬(s = []) := by
    intro he; rw [he] at h; exact absurd h (by decide)
  simp only [classify_error, if_neg hs, h, if_pos]

theorem classify_of_recoverable {s : PyStr}
    (hp : firstMatch PERMANENT_ERRORS (pyLower s) = false)
    (hr : firstMatch RECOVERABLE_ERRORS (pyLower s) = true) :
    classify_error (some s) = .recoverable := by
  have hs : ¬(s = []) := by
    intro he; rw [he] at hr; exact absurd hr (by decide)
  simp only [classify_error, if_neg hs, hp, hr, Bool.false_eq_true, if_false, if_pos]

theorem classify_of_no_match {s : PyStr}
    (hp : firstMatch PERMANENT_ERRORS (pyLower s) = false)
    (hr : firstMatch RECOVERABLE_ERRORS (pyLower s) = false) :
    classify_error (some s) = .unknown := by
  by_cases hs : s = []
  · rw [hs]; rfl
  · simp only [classify_error, if_neg hs, hp, hr, Bool.false_eq_true, if_false]

/-- Branch characterization of `handle_crawl_error`: the classification check
and the attempt-cap check commute in the source (both make `should_retry`
false, and the permanent classification then selects `dead`), so the handler
is equivalent to checking the classification first. -/
theorem handle_crawl_error_cases (site : Site) (crawl_log : CrawlLog) (msg : PyStr)
    (now : Nat) :
    handle_crawl_error site crawl_log msg now =
      (let rc1 := site.retry_count.getD 0 + 1
       let site1 : Site :=
         { site with
             error_message := some msg
             retry_count := some rc1 }
       let log1 : CrawlLog :=
         { crawl_log with
             finished_at := some now
             status := "error"
             error_message := some msg }
       if classify_error (some msg) = .permanent then
         ({ site1 with status := "dead" }, log1)
       else if MAX_RETRIES ≤ rc1 then
         ({ site1 with status := "error" }, log1)
       else
         ({ site1 with
              status := "retry_pending"
              next_crawl := some (now + get_retry_delay (rc1 - 1)) }, log1)) := by
  by_cases hp : classify_error (some msg) = ErrorClass.permanent <;>
    by_cases hc : MAX_RETRIES ≤ site.retry_count.getD 0 + 1 <;>
    simp [handle_crawl_error, should_retry, hp, hc]

theorem handle_crawl_error_log_status (site : Site) (crawl_log : CrawlLog)
    (msg : PyStr) (now : Nat) :
    (handle_crawl_error site crawl_log msg now).2.status = "error" := by
  rw [handle_crawl_error_cases]
  by_cases hp : classify_error (some msg) = ErrorClass.permanent <;>
    by_cases hc : MAX_RETRIES ≤ site.retry_count.getD 0 + 1 <;>
    simp [hp, hc]

theorem handle_crawl_error_site_message (site : Site) (crawl_log : CrawlLog)
    (msg : PyStr) (now : Nat) :
    (handle_crawl_error site crawl_log msg now).1.error_message = some msg := by
  rw [handle_crawl_error_cases]
  by_cases hp : classify_error (some msg) = ErrorClass.permanent <;>
    by_cases hc : MAX_RETRIES ≤ site.retry_count.getD 0 + 1 <;>
    simp [hp, hc]

theorem handle_crawl_error_status_ne_ready (site : Site) (crawl_log : CrawlLog)
    (msg : PyStr) (now : Nat) :
    (handle_crawl_error site crawl_log msg now).1.status ≠ "ready" := by
  rw [handle_crawl_error_cases]
  by_cases hp : classify_error (some msg) = ErrorClass.permanent <;>
    by_cases hc : MAX_RETRIES ≤ site.retry_count.getD 0 + 1 <;>
    simp [hp, hc]

theorem lookupA_insertA {α : Type} (m : List (Nat × α)) (k : Nat) (v : α) :
    lookupA (insertA m k v) k = some v := by
  simp [insertA, lookupA]

theorem run_crawl_urls_completed (timeout : Nat) (rcs : List Int) :
    run_crawl_urls timeout (rcs.map RunOutcome.completed) = none := by
  induction rcs with
  | nil => rfl
  | cons rc rest ih => simpa [run_crawl_urls] using ih

theorem apply_result_active (site_id log_id : Nat)
    (f : Site → CrawlLog → Site × CrawlLog) (st : EngineState) :
    (apply_result site_id log_id f st).active_crawls = st.active_crawls := by
  unfold apply_result
  split <;> rfl

theorem commit_youtube_success_active (site_id log_id size_bytes now : Nat)
    (st : EngineState) :
    (commit_youtube_success site_id log_id size_bytes now st).active_crawls
      = st.active_crawls := by
  unfold commit_youtube_success
  exact apply_result_active _ _ _ _

theorem youtube_steps_preserve (site_id log_id : Nat) (info : Option ChannelInfo)
    (run : RunResult) (found_ids : List PyStr) (size_bytes now : Nat) :
    ∀ f ∈ crawl_youtube_steps site_id log_id info run found_ids size_bytes now,
      ∀ st : EngineState, (f st).active_crawls = st.active_crawls := by
  intro f hf st
  cases run with
  | finished rc =>
    simp only [crawl_youtube_steps, List.cons_append, List.nil_append,
      List.mem_cons, List.not_mem_nil, or_false] at hf
    rcases hf with h | h | h | h | h <;> subst h
    · rfl
    · rfl
    · rfl
    · rfl
    · exact commit_youtube_success_active _ _ _ _ _
  | expired =>
    simp only [crawl_youtube_steps, List.cons_append, List.nil_append,
      List.mem_cons, List.not_mem_nil, or_false] at hf
    rcases hf with h | h | h | h <;> subst h
    · rfl
    · rfl
    · rfl
    · exact apply_result_active _ _ _ _

theorem singlefile_steps_preserve (site_id log_id : Nat) (run : RunResult)
    (mirror_files : List (PyStr × Nat)) (stderr : PyStr) (now : Nat) :
    ∀ f ∈ crawl_singlefile_steps site_id log_id run mirror_files stderr now,
      ∀ st : EngineState, (f st).active_crawls = st.active_crawls := by
  intro f hf st
  simp only [crawl_singlefile_steps, List.mem_cons, List.not_mem_nil, or_false] at hf
  rcases hf with h | h | h <;> subst h
  · rfl
  · rfl
  · exact apply_result_active _ _ _ _

theorem run_steps_active (steps : List (EngineState → EngineState))
    (hpres : ∀ f ∈ steps, ∀ st : EngineState, (f st).active_crawls = st.active_crawls) :
    ∀ st st1 : EngineState, st1 ∈ run_steps steps st →
      st1.active_crawls = st.active_crawls := by
  induction steps with
  | nil =>
    intro st st1 h
    rw [run_steps] at h
    rcases List.mem_cons.mp h with h | h
    · rw [h]
    · cases h
  | cons f rest ih =>
    intro st st1 h
    rw [run_steps] at h
    rcases List.mem_cons.mp h with h | h
    · rw [h]
    · have h1 := ih (fun g hg => hpres g (List.mem_cons_of_mem f hg)) (f st) st1 h
      rw [h1, hpres f (List.mem_cons_self f rest) st]

/-! Claim theorems. -/

/-- C1: on every non-success outcome the retry/backoff handler increments the
job's retry count by one; a permanent classification yields status `dead`
regardless of prior count; otherwise an incremented count at or above the cap
of 3 yields `error`; otherwise status is `retry_pending` with next-attempt
time `now + delay[retry_count-1]` minutes where `delay = [5, 15, 45]` and the
last value repeats beyond the list; on success the retry count resets to 0
and the error message is cleared. -/
theorem retry_backoff_state_machine (site : Site) (crawl_log : CrawlLog) (msg : PyStr)
    (now : Nat) :
    ((handle_crawl_error site crawl_log msg now).1.retry_count
        = some (site.retry_count.getD 0 + 1)) ∧
    (classify_error (some msg) = .permanent →
        (handle_crawl_error site crawl_log msg now).1.status = "dead") ∧
    (classify_error (some msg) ≠ .permanent →
        MAX_RETRIES ≤ site.retry_count.getD 0 + 1 →
        (handle_crawl_error site crawl_log msg now).1.status = "error") ∧
    (classify_error (some msg) ≠ .permanent →
        site.retry_count.getD 0 + 1 < MAX_RETRIES →
        (handle_crawl_error site crawl_log msg now).1.status = "retry_pending" ∧
        (handle_crawl_error site crawl_log msg now).1.next_crawl
          = some (now + get_retry_delay (site.retry_count.getD 0))) ∧
    (RETRY_DELAYS = [5, 15, 45] ∧ get_retry_delay 0 = 5 ∧ get_retry_delay 1 = 15 ∧
      get_retry_delay 2 = 45 ∧ ∀ k, 3 ≤ k → get_retry_delay k = 45) ∧
    (∀ size_bytes page_count : Nat,
        (mark_crawl_success site crawl_log size_bytes page_count now).1.retry_count
          = some 0 ∧
        (mark_crawl_success site crawl_log size_bytes page_count now).1.error_message
          = none) := by
  refine ⟨?_, ?_, ?_, ?_, ⟨rfl, rfl, rfl, rfl, ?_⟩, fun _ _ => ⟨rfl, rfl⟩⟩
  · rw [handle_crawl_error_cases]
    by_cases hp : classify_error (some msg) = ErrorClass.permanent <;>
      by_cases hc : MAX_RETRIES ≤ site.retry_count.getD 0 + 1 <;> simp [hp, hc]
  · intro hp
    rw [handle_crawl_error_cases]
    simp [hp]
  · intro hp hc
    rw [handle_crawl_error_cases]
    simp [hp, hc]
  · intro hp hc
    have hc2 : ¬ MAX_RETRIES ≤ site.retry_count.getD 0 + 1 := Nat.not_le.mpr hc
    rw [handle_crawl_error_cases]
    simp [hp, hc2]
  · intro k hk
    have h3 : ¬ k < RETRY_DELAYS.length := by
      simp only [RETRY_DELAYS, List.length_cons, List.length_nil]
      omega
    simp only [get_retry_delay, if_neg h3]
    rfl

/-- C1 witness: a permanent error (404) kills a fresh job; a recoverable
error on a fresh job schedules a retry. -/
theorem retry_backoff_state_machine_witness :
    (handle_crawl_error site0 log0 "HTTP 404 not found".data 0).1.status = "dead" ∧
    (handle_crawl_error site0 log0 "connection reset by peer".data 0).1.status
        = "retry_pending" := by
  constructor
  · exact (retry_backoff_state_machine site0 log0 "HTTP 404 not found".data 0).2.1
      (by decide)
  · exact ((retry_backoff_state_machine site0 log0 "connection reset by peer".data 0).2.2.2.1
      (by decide) (by decide)).1

/-- C3 counterexample: on total-timeout expiry the engine kills the
subprocess directly, with no graceful terminate signal first (and likewise on
stall detection), refuting the claim that termination is graceful-first in
every case. -/
theorem graceful_termination_counterexample :
    termination_signals TerminationEvent.totalTimeout = [ProcSignal.kill] ∧
    ProcSignal.terminate ∉ termination_signals TerminationEvent.totalTimeout ∧
    termination_signals TerminationEvent.stallDetected = [ProcSignal.kill] ∧
    ProcSignal.terminate ∉ termination_signals TerminationEvent.stallDetected := by
  decide

/-- C3 amended: only explicit cancellation is graceful (terminate first, then
kill only if the process outlives the 5-second grace period); total-timeout
and stall detection kill forcibly at once, and normal completion sends no
signal at all. -/
theorem termination_policy_by_event :
    termination_signals TerminationEvent.normalCompletion = [] ∧
    termination_signals TerminationEvent.totalTimeout = [ProcSignal.kill] ∧
    termination_signals TerminationEvent.stallDetected = [ProcSignal.kill] ∧
    (∀ g, (termination_signals (TerminationEvent.cancellation g)).head?
        = some ProcSignal.terminate) ∧
    termination_signals (TerminationEvent.cancellation true) = [ProcSignal.terminate] ∧
    termination_signals (TerminationEvent.cancellation false)
        = [ProcSignal.terminate, ProcSignal.kill] := by
  decide

/-- C4: classification is a case-insensitive substring match, permanent
markers checked before recoverable ones, first match winning, no match and
the empty/absent message giving `unknown`; any string containing "404" is
permanent, any string containing "timed out" or "503" and no permanent
marker is recoverable. -/
theorem error_classifier_spec :
    (∀ s : PyStr, substrIn "404".data s = true →
        classify_error (some s) = .permanent) ∧
    (∀ s : PyStr, firstMatch PERMANENT_ERRORS (pyLower s) = false →
        substrIn "timed out".data s = true →
        classify_error (some s) = .recoverable) ∧
    (∀ s : PyStr, firstMatch PERMANENT_ERRORS (pyLower s) = false →
        substrIn "503".data s = true →
        classify_error (some s) = .recoverable) ∧
    classify_error (some []) = .unknown ∧
    classify_error none = .unknown ∧
    (∀ s : PyStr, firstMatch PERMANENT_ERRORS (pyLower s) = true →
        classify_error (some s) = .permanent) ∧
    (∀ s : PyStr, firstMatch PERMANENT_ERRORS (pyLower s) = false →
        firstMatch RECOVERABLE_ERRORS (pyLower s) = false →
        classify_error (some s) = .unknown) ∧
    classify_error (some "Not Found".data) = .permanent := by
  refine ⟨?_, ?_, ?_, rfl, rfl, ?_, ?_, by decide⟩
  · intro s h
    have h1 : substrIn "404".data (pyLower s) = true := substrIn_lower (by decide) h
    exact classify_of_permanent
      (firstMatch_of_mem (show "404".data ∈ PERMANENT_ERRORS by decide) h1)
  · intro s hp ht
    have h1 : substrIn "timed out".data (pyLower s) = true :=
      substrIn_lower (by decide) ht
    exact classify_of_recoverable hp
      (firstMatch_of_mem (show "timed out".data ∈ RECOVERABLE_ERRORS by decide) h1)
  · intro s hp ht
    have h1 : substrIn "503".data (pyLower s) = true := substrIn_lower (by decide) ht
    exact classify_of_recoverable hp
      (firstMatch_of_mem (show "503".data ∈ RECOVERABLE_ERRORS by decide) h1)
  · intro s h
    exact classify_of_permanent h
  · intro s hp hr
    exact classify_of_no_match hp hr

/-- C4 witness: concrete classifications through the general theorem. -/
theorem error_classifier_spec_witness :
    classify_error (some "HTTP Error 404".data) = ErrorClass.permanent ∧
    classify_error (some "connection timed out".data) = ErrorClass.recoverable ∧
    classify_error (some "HTTP 503".data) = ErrorClass.recoverable := by
  refine ⟨error_classifier_spec.1 "HTTP Error 404".data (by decide),
          error_classifier_spec.2.1 "connection timed out".data (by decide) (by decide),
          error_classifier_spec.2.2.1 "HTTP 503".data (by decide) (by decide)⟩

/-- C6 counterexample: with job 1 live (one thread, one live entry), a second
`EnqueueCrawl` spawns a second crawl task for the same job instead of being a
no-op. -/
theorem enqueue_idempotence_counterexample :
    (lookupA st_live.active_crawls 1).isSome = true ∧
    st_live.crawl_threads.count 1 = 1 ∧
    (start_crawl st_live 1).crawl_threads.count 1 = 2 := by
  decide

/-- C6 amended: `EnqueueCrawl` unconditionally spawns one more crawl task for
the job even when it is already live; it neither consults nor changes the
live-crawl table, so idempotence is not enforced at this layer. -/
theorem enqueue_always_spawns (st : EngineState) (site_id : Nat)
    (_h : (lookupA st.active_crawls site_id).isSome = true) :
    (start_crawl st site_id).crawl_threads.count site_id
        = st.crawl_threads.count site_id + 1 ∧
    (start_crawl st site_id).active_crawls = st.active_crawls ∧
    (start_crawl st site_id).sites = st.sites := by
  refine ⟨?_, rfl, rfl⟩
  simp [start_crawl]

/-- C6 witness: the amended claim evaluated on the live fixture. -/
theorem enqueue_always_spawns_witness :
    (start_crawl st_live 1).crawl_threads.count 1 = st_live.crawl_threads.count 1 + 1 :=
  (enqueue_always_spawns st_live 1 (by decide)).1

/-- C2 counterexample: a video-channel job whose tool run finishes with exit
code 0 but whose computed byte size and item count are both 0 is marked
`ready` with a `success` Attempt Record — the empty-result check exists only
on the other paths. -/
theorem empty_result_counterexample :
    (crawl_youtube_result site_yt log0 (RunResult.finished 0) 0 0 0).1.status
        = "ready" ∧
    (crawl_youtube_result site_yt log0 (RunResult.finished 0) 0 0 0).1.size_bytes
        = some 0 ∧
    (crawl_youtube_result site_yt log0 (RunResult.finished 0) 0 0 0).1.page_count
        = some 0 ∧
    (crawl_youtube_result site_yt log0 (RunResult.finished 0) 0 0 0).2.status
        = "success" := by
  refine ⟨rfl, rfl, rfl, rfl⟩

/-- C2 amended: a page-mirror run with zero bytes and zero pages, and a
browser-snapshot run with zero pages, are recorded as failures and never
`ready`; the video-channel path performs no emptiness check and marks the
job `ready` even with zero bytes and zero items. -/
theorem empty_result_by_kind (site : Site) (crawl_log : CrawlLog)
    (runs : List RunOutcome) (files : List (PyStr × Nat)) (stderr : PyStr)
    (timeout now : Nat) :
    (run_crawl_urls timeout runs = none → (get_mirror_stats files).1 = 0 →
      (get_mirror_stats files).2 = 0 →
      (crawl_website_result site crawl_log runs files timeout now).1.status ≠ "ready" ∧
      (crawl_website_result site crawl_log runs files timeout now).2.status = "error") ∧
    ((get_mirror_stats files).2 = 0 →
      (crawl_singlefile_result site crawl_log (RunResult.finished 0) files stderr now).1.status
          ≠ "ready" ∧
      (crawl_singlefile_result site crawl_log (RunResult.finished 0) files stderr now).2.status
          = "error") ∧
    (∀ rc : Int,
      (crawl_youtube_result site crawl_log (RunResult.finished rc) 0 0 now).1.status
          = "ready") := by
  refine ⟨?_, ?_, fun rc => rfl⟩
  · intro hruns h1 h2
    have hcond : (get_mirror_stats files).2 = 0 ∧ (get_mirror_stats files).1 < 1000 :=
      ⟨h2, by omega⟩
    have heq : crawl_website_result site crawl_log runs files timeout now
        = handle_crawl_error site crawl_log (pyTake 1000 "No content downloaded".data) now := by
      simp only [crawl_website_result, hruns]
      rw [if_pos hcond]
    rw [heq]
    exact ⟨handle_crawl_error_status_ne_ready _ _ _ _, handle_crawl_error_log_status _ _ _ _⟩
  · intro h2
    have heq : crawl_singlefile_result site crawl_log (RunResult.finished 0) files stderr now
        = handle_crawl_error site crawl_log
            (pyTake 1000 "No content captured by SingleFile".data) now := by
      simp only [crawl_singlefile_result, if_pos]
      rw [if_pos h2]
    rw [heq]
    exact ⟨handle_crawl_error_status_ne_ready _ _ _ _, handle_crawl_error_log_status _ _ _ _⟩

/-- C2 witness: the amended claim evaluated on empty mirrors. -/
theorem empty_result_by_kind_witness :
    (crawl_website_result site0 log0 [] [] 3600 0).1.status ≠ "ready" ∧
    (crawl_singlefile_result site0 log0 (RunResult.finished 0) [] [] 0).1.status
        ≠ "ready" := by
  exact ⟨((empty_result_by_kind site0 log0 [] [] [] 3600 0).1 rfl rfl rfl).1,
         ((empty_result_by_kind site0 log0 [] [] [] 3600 0).2.1 rfl).1⟩

/-- C5 counterexample: a page-mirror run whose only tool invocation exits
with code 4 (neither 0 nor 8) still takes the success path when the mirror
directory holds content: the job ends `ready` with retry count 0 and a
`success` Attempt Record. -/
theorem exit_code_counterexample :
    (4 : Int) ∉ ([0, 8] : List Int) ∧
    (crawl_website_result site0 log0 [RunOutcome.completed 4] files_html 3600 0).1.status
        = "ready" ∧
    (crawl_website_result site0 log0 [RunOutcome.completed 4] files_html 3600 0).1.retry_count
        = some 0 ∧
    (crawl_website_result site0 log0 [RunOutcome.completed 4] files_html 3600 0).2.status
        = "success" := by
  decide

/-- C5 amended: a non-`{0, 8}` exit code from the page-mirror tool is only
logged as a warning; the dispatch outcome is entirely independent of the exit
codes of completed runs and is decided solely by the post-run content check
(`ready` unless page count is 0 and size is under 1000 bytes, in which case
the "No content downloaded" failure is routed to the retry machine). -/
theorem exit_code_ignored (site : Site) (crawl_log : CrawlLog) (rcs1 rcs2 : List Int)
    (files : List (PyStr × Nat)) (timeout now : Nat) :
    (crawl_website_result site crawl_log (rcs1.map RunOutcome.completed) files timeout now
      = crawl_website_result site crawl_log (rcs2.map RunOutcome.completed) files timeout now) ∧
    (¬((get_mirror_stats files).2 = 0 ∧ (get_mirror_stats files).1 < 1000) →
      (crawl_website_result site crawl_log (rcs1.map RunOutcome.completed)
          files timeout now).1.status = "ready") ∧
    ((get_mirror_stats files).2 = 0 ∧ (get_mirror_stats files).1 < 1000 →
      (crawl_website_result site crawl_log (rcs1.map RunOutcome.completed)
          files timeout now).1.error_message = some "No content downloaded".data) := by
  have h1 := run_crawl_urls_completed timeout rcs1
  have h2 := run_crawl_urls_completed timeout rcs2
  refine ⟨?_, ?_, ?_⟩
  · simp only [crawl_website_result, h1, h2]
  · intro hc
    simp only [crawl_website_result, h1]
    rw [if_neg hc]
    rfl
  · intro hc
    simp only [crawl_website_result, h1]
    rw [if_pos hc, handle_crawl_error_site_message]
    decide

/-- C5 witness: exit code 7 with a non-empty mirror still yields `ready`. -/
theorem exit_code_ignored_witness :
    (crawl_website_result site0 log0 [RunOutcome.completed 7] files_html 3600 0).1.status
        = "ready" :=
  (exit_code_ignored site0 log0 [7] [] files_html 3600 0).2.1 (by decide)

/-- C10: with all page-mirror runs completed, the "No content downloaded"
failure occurs iff the mirror's HTML page count is 0 and its byte size is
strictly below 1000; zero pages with at least 1000 bytes passes and the job
is `ready` with `page_count` 0. -/
theorem no_content_check_iff (site : Site) (crawl_log : CrawlLog)
    (runs : List RunOutcome) (files : List (PyStr × Nat)) (timeout now : Nat)
    (hruns : run_crawl_urls timeout runs = none) :
    ((crawl_website_result site crawl_log runs files timeout now).1.error_message
        = some "No content downloaded".data ↔
      (get_mirror_stats files).2 = 0 ∧ (get_mirror_stats files).1 < 1000) ∧
    ((get_mirror_stats files).2 = 0 → 1000 ≤ (get_mirror_stats files).1 →
      (crawl_website_result site crawl_log runs files timeout now).1.status = "ready" ∧
      (crawl_website_result site crawl_log runs files timeout now).1.page_count
          = some 0) := by
  constructor
  · by_cases hc : (get_mirror_stats files).2 = 0 ∧ (get_mirror_stats files).1 < 1000
    · simp only [crawl_website_result, hruns]
      rw [if_pos hc]
      have hmsg : pyTake 1000 "No content downloaded".data
          = "No content downloaded".data := by decide
      simp [handle_crawl_error_site_message, hmsg, hc]
    · simp only [crawl_website_result, hruns]
      rw [if_neg hc]
      simp [mark_crawl_success, hc]
  · intro h1 h2
    have hc : ¬((get_mirror_stats files).2 = 0 ∧ (get_mirror_stats files).1 < 1000) := by
      intro h
      omega
    simp only [crawl_website_result, hruns]
    rw [if_neg hc]
    exact ⟨rfl, by simp [mark_crawl_success, h1]⟩

/-- C10 witness: one non-HTML file of exactly 1000 bytes passes the check and
the job is marked ready with zero pages. -/
theorem no_content_check_iff_witness :
    (crawl_website_result site0 log0 [RunOutcome.completed 0] files_bin 3600 0).1.status
        = "ready" ∧
    (crawl_website_result site0 log0 [RunOutcome.completed 0] files_bin 3600 0).1.page_count
        = some 0 :=
  (no_content_check_iff site0 log0 [RunOutcome.completed 0] files_bin 3600 0
    (by decide)).2 (by decide) (by decide)

/-- C7: `CancelCrawl` on a job with a live entry returns ok, sends terminate
first (kill only if the process outlives the grace period), finalizes the
open Attempt Record as `cancelled`, and persists job status `error` with the
manually-interrupted message; on a job with no live entry it returns ok=false
with a descriptive message and changes nothing. -/
theorem cancel_crawl_spec (st : EngineState) (site_id now : Nat) :
    (∀ entry site, lookupA st.active_crawls site_id = some entry →
      lookupA st.sites site_id = some site →
      (stop_crawl st site_id now).2.1 = true ∧
      (stop_crawl st site_id now).2.2.2
        = termination_signals (.cancellation entry.process_exits_within_grace) ∧
      ((stop_crawl st site_id now).2.2.2).head? = some ProcSignal.terminate ∧
      (entry.process_exits_within_grace = false →
        (stop_crawl st site_id now).2.2.2 = [ProcSignal.terminate, ProcSignal.kill]) ∧
      lookupA (stop_crawl st site_id now).1.sites site_id
        = some { site with
                   status := "error"
                   error_message := some "Crawl interrotto manualmente".data } ∧
      (∀ crawl_log, lookupA st.crawl_logs entry.crawl_log_id = some crawl_log →
        lookupA (stop_crawl st site_id now).1.crawl_logs entry.crawl_log_id
          = some { crawl_log with
                     status := "cancelled"
                     finished_at := some now
                     error_message := some "Interrotto manualmente".data }) ∧
      lookupA (stop_crawl st site_id now).1.active_crawls site_id = none) ∧
    (lookupA st.active_crawls site_id = none →
      stop_crawl st site_id now
        = (st, false, "Nessun crawl attivo per questo sito".data, []) ∧
      "Nessun crawl attivo per questo sito".data ≠ []) := by
  constructor
  · intro entry site h1 h2
    have hstop : stop_crawl st site_id now =
        ({ st with
             active_crawls := removeA st.active_crawls site_id
             sites := updateA st.sites site_id (fun site =>
               { site with
                   status := "error"
                   error_message := some "Crawl interrotto manualmente".data })
             crawl_logs := updateA st.crawl_logs entry.crawl_log_id (fun crawl_log =>
               { crawl_log with
                   status := "cancelled"
                   finished_at := some now
                   error_message := some "Interrotto manualmente".data }) },
          true, "Crawl interrotto".data,
          termination_signals (.cancellation entry.process_exits_within_grace)) := by
      simp only [stop_crawl, h1]
    rw [hstop]
    dsimp only
    refine ⟨rfl, rfl, ?_, ?_, ?_, ?_, ?_⟩
    · cases hg : entry.process_exits_within_grace <;> simp [termination_signals, hg]
    · intro hg
      simp [termination_signals, hg]
    · rw [lookupA_updateA, h2]
      rfl
    · intro crawl_log h3
      rw [lookupA_updateA, h3]
      rfl
    · exact lookupA_removeA _ _
  · intro h
    refine ⟨?_, by decide⟩
    simp only [stop_crawl, h]

/-- C7 witness: the live fixture cancelled, and a miss on an empty state. -/
theorem cancel_crawl_spec_witness :
    (stop_crawl st_live 1 3).2.1 = true ∧
    (stop_crawl st_live 1 3).2.2.2 = [ProcSignal.terminate, ProcSignal.kill] ∧
    lookupA (stop_crawl st_live 1 3).1.active_crawls 1 = none ∧
    (stop_crawl st_clean 1 3).2.1 = false := by
  have h := (cancel_crawl_spec st_live 1 3).1 entry0 site_live (by decide) (by decide)
  have h0 := (cancel_crawl_spec st_clean 1 3).2 (by decide)
  refine ⟨h.1, h.2.2.2.1 (by decide), h.2.2.2.2.2.2, ?_⟩
  rw [h0.1]

/-- C8 counterexample: a job with no recorded size whose URL has an
allow-list word only in its path (domain `example.com`) still gets the long
4-hour budget, refuting the claim that the long budget requires a large size
or an allow-listed domain. -/
theorem timeout_policy_counterexample :
    get_timeout_for_site site_c8 = LARGE_SITE_TIMEOUT ∧
    urlDomain site_c8.url = "example.com".data ∧
    firstMatch large_patterns (pyLower (urlDomain site_c8.url)) = false ∧
    ¬(100 * 1024 * 1024 < site_c8.size_bytes.getD 0) ∧
    LARGE_SITE_TIMEOUT ≠ DEFAULT_TIMEOUT := by
  decide

/-- C8 amended: the long budget (4h) is returned iff the last known size
exceeds 100 MiB or the lowercased full URL contains one of the allow-list
substrings (not restricted to the domain part); otherwise the short budget
(1h); video-channel jobs always use 3 times the long budget (12h). -/
theorem timeout_policy_url_match (site : Site) :
    (get_timeout_for_site site = LARGE_SITE_TIMEOUT ↔
      100 * 1024 * 1024 < site.size_bytes.getD 0 ∨
        firstMatch large_patterns (pyLower site.url) = true) ∧
    (get_timeout_for_site site = LARGE_SITE_TIMEOUT ∨
      get_timeout_for_site site = DEFAULT_TIMEOUT) ∧
    LARGE_SITE_TIMEOUT = 4 * 3600 ∧
    DEFAULT_TIMEOUT = 3600 ∧
    crawl_youtube_timeout = 3 * LARGE_SITE_TIMEOUT := by
  refine ⟨?_, ?_, by decide, rfl, by decide⟩
  · unfold get_timeout_for_site
    split_ifs with hs hm
    · simp [hs]
    · simp [hm]
    · simp [hs, hm, show DEFAULT_TIMEOUT ≠ LARGE_SITE_TIMEOUT by decide]
  · unfold get_timeout_for_site
    split_ifs <;> simp

/-- C8 witness: an allow-listed domain receives the long budget via the
amended equivalence. -/
theorem timeout_policy_url_match_witness :
    get_timeout_for_site site_large = LARGE_SITE_TIMEOUT :=
  (timeout_policy_url_match site_large).1.mpr (Or.inr (by decide))

/-- C9: only the wget path registers a live-crawl entry; a video-channel or
browser-snapshot run leaves the live-crawl table unchanged at every step, so
throughout such a run the live listing omits the job and live log tail,
progress, and cancellation report it as not found / nothing to cancel. -/
theorem only_wget_registers_live (st : EngineState) (site_id log_id : Nat)
    (info : Option ChannelInfo) (run : RunResult) (found_ids : List PyStr)
    (mirror_files : List (PyStr × Nat)) (stderr : PyStr)
    (size_bytes now last_n : Nat)
    (hnot : lookupA st.active_crawls site_id = none) :
    (∀ st1 ∈ run_steps (crawl_youtube_steps site_id log_id info run found_ids size_bytes now) st,
        st1.active_crawls = st.active_crawls ∧
        get_crawl_live_log st1 site_id last_n = none ∧
        get_crawl_progress st1 site_id now = none ∧
        site_id ∉ get_active_crawls st1 ∧
        stop_crawl st1 site_id now
          = (st1, false, "Nessun crawl attivo per questo sito".data, [])) ∧
    (∀ st1 ∈ run_steps (crawl_singlefile_steps site_id log_id run mirror_files stderr now) st,
        st1.active_crawls = st.active_crawls ∧
        stop_crawl st1 site_id now
          = (st1, false, "Nessun crawl attivo per questo sito".data, [])) ∧
    (∀ entry, lookupA (register_active_crawl site_id entry st).active_crawls site_id
        = some entry) := by
  refine ⟨?_, ?_, ?_⟩
  · intro st1 hmem
    have hact : st1.active_crawls = st.active_crawls :=
      run_steps_active _ (youtube_steps_preserve site_id log_id info run found_ids
        size_bytes now) st st1 hmem
    have hnone : lookupA st1.active_crawls site_id = none := by rw [hact]; exact hnot
    have happ := live_apis_not_found st1 site_id now last_n hnone
    exact ⟨hact, happ.1, happ.2.1, happ.2.2.1, happ.2.2.2⟩
  · intro st1 hmem
    have hact : st1.active_crawls = st.active_crawls :=
      run_steps_active _ (singlefile_steps_preserve site_id log_id run mirror_files
        stderr now) st st1 hmem
    have hnone : lookupA st1.active_crawls site_id = none := by rw [hact]; exact hnot
    exact ⟨hact, (live_apis_not_found st1 site_id now last_n hnone).2.2.2⟩
  · intro entry
    exact lookupA_insertA _ _ _

/-- C9 witness: during a video-channel run started from a state with no live
entry for job 7, cancellation reports nothing to cancel. -/
theorem only_wget_registers_live_witness :
    stop_crawl st_clean 7 0
      = (st_clean, false, "Nessun crawl attivo per questo sito".data, []) ∧
    get_crawl_live_log st_clean 7 50 = none := by
  have h := (only_wget_registers_live st_clean 7 99 none (RunResult.finished 0) [] [] []
    0 0 50 (by decide)).1 st_clean (by decide)
  exact ⟨h.2.2.2.2, h.2.1⟩

end Speculum
